import Mathlib

/-!
Shallow embedding of the kamailio_exporter response-decoding and
metric-projection layer (collector.go), together with proofs about it.

The embedding models decoded BINRPC records as an inductive value tree,
the per-method projection `scrapeMethod` as a pure function from the raw
record list to a metrics map, the metric catalog `metricsList` and the
exported-name derivation `ExportedName`, and the scrape cycle `scrape`
as a fold over the configured method list that accumulates the samples
pushed to the Prometheus channel and stops at the first error.

Go machine details modelled explicitly:
* Go `map[string][]MetricValue` is modelled as an association list with
  unique keys (`Metrics`); `Metrics.setKey` is Go map assignment and
  `Metrics.appendAt` is `m[k] = append(m[k], v)`.
* `value.Int()` / `value.String()` of the binrpc library succeed only on
  values of the right type; the projections that discard the error
  (`i, _ := item.Value.Int()`) are modelled by the defaulting variants
  `intValD` / `strValD` which return the Go zero value on mismatch.
* Errors are an explicit inductive `ScrapeError`; `.remote` is the
  `[500] message` error, `.malformed` the "expected 1 record, got n"
  error, `.notStruct` / `.notInt` the binrpc library coercion errors,
  `.missingSetID` the "missing set ID" error of the dispatcher parsing.
-/

namespace Kamailio

/-- A decoded BINRPC record / value: integer, text, or a structure made
of an ordered list of key/value items (keys may repeat). -/
inductive BValue where
  | vint : Int → BValue
  | vstr : String → BValue
  | vstruct : List (String × BValue) → BValue

/-- Errors of the decode / projection layer.  The two `panic`
constructors mark Go runtime panics — in Go these crash the process
instead of returning an error, so they are not ordinary error flow:
`panicInvalidMethod` is the explicit `panic("invalid method requested")`
of the scrape loop, and `panicTypeAssertion` is the unchecked
`records[1].Value.(string)` type assertion of the remote-error branch
failing on a non-text second record. -/
inductive ScrapeError where
  | remote (code : Int) (msg : String)
  | malformed (expected got : Nat)
  | notStruct
  | notInt
  | missingSetID
  | panicInvalidMethod
  | panicTypeAssertion
deriving DecidableEq, Repr

/-- `record.StructItems()`: succeeds only on a structure. -/
def BValue.structItems : BValue → Except ScrapeError (List (String × BValue))
  | .vstruct items => .ok items
  | _ => .error .notStruct

/-- `value.Int()`: succeeds only on an integer. -/
def BValue.intVal : BValue → Except ScrapeError Int
  | .vint n => .ok n
  | _ => .error .notInt

/-- `i, _ := value.Int()`: the error is discarded, `i` keeps the Go zero
value on mismatch. -/
def BValue.intValD : BValue → Int
  | .vint n => n
  | _ => 0

/-- `s, _ := value.String()`: the error is discarded, `s` keeps the Go
zero value on mismatch. -/
def BValue.strValD : BValue → String
  | .vstr s => s
  | _ => ""

/-- label set of one sample (key/value pairs, built in program order). -/
abbrev Labels := List (String × String)

/-- MetricValue is the value of a metric, with its labels. -/
structure MetricValue where
  value : Int
  labels : Labels
deriving DecidableEq, Repr

/-- Go `map[string][]MetricValue`, as an association list whose keys are
kept unique by the two update operations below. -/
abbrev Metrics := List (String × List MetricValue)

/-- Map lookup, `[]MetricValue` defaulting to the empty list. -/
def Metrics.find : Metrics → String → List MetricValue
  | [], _ => []
  | (k', v') :: rest, k => if k' = k then v' else Metrics.find rest k

/-- Go map assignment `m[k] = v`. -/
def Metrics.setKey : Metrics → String → List MetricValue → Metrics
  | [], k, v => [(k, v)]
  | (k', v') :: rest, k, v =>
    if k' = k then (k, v) :: rest else (k', v') :: Metrics.setKey rest k v

/-- Go `m[k] = append(m[k], v)`. -/
def Metrics.appendAt : Metrics → String → MetricValue → Metrics
  | [], k, v => [(k, [v])]
  | (k', v') :: rest, k, v =>
    if k' = k then (k, v' ++ [v]) :: rest else (k', v') :: Metrics.appendAt rest k v

/-- `codeRegex = regexp.MustCompile("^[0-9x]{3}$")`: anchored, exactly
three characters, each a decimal digit or `x`. -/
def codeMatch (s : String) : Bool :=
  s.length == 3 && s.toList.all (fun c => c.isDigit || c == 'x')

/-- One step of the `sl.stats` / `tm.stats` projection loop. -/
def statsStep (m : Metrics) (item : String × BValue) : Metrics :=
  let i := item.2.intValD
  if codeMatch item.1 then
    m.appendAt "codes" ⟨i, [("code", item.1)]⟩
  else
    m.setKey item.1 [⟨i, []⟩]

/-- The `sl.stats` / `tm.stats` projection: code-bucket fields are folded
into the synthetic `codes` metric, other fields become same-named
label-free samples. -/
def projectStats (items : List (String × BValue)) : Metrics :=
  items.foldl statsStep []

/-- The flat projection loop (`metrics[item.Key] = []MetricValue{{...}}`
for every top-level field). -/
def projectFlat (items : List (String × BValue)) : Metrics :=
  items.foldl (fun m item => m.setKey item.1 [⟨item.2.intValD, []⟩]) []

/-- DispatcherTarget is a target of the dispatcher module. -/
structure DispatcherTarget where
  URI : String
  Flags : String
  SetID : Int
deriving DecidableEq, Repr

/-- The innermost `dispatcher.list` loop: fold the properties of one
`DEST` entry into a target (URI / FLAGS, errors discarded). -/
def parseProps (props : List (String × BValue)) : DispatcherTarget :=
  props.foldl
    (fun t p =>
      if p.1 = "URI" then { t with URI := p.2.strValD }
      else if p.1 = "FLAGS" then { t with Flags := p.2.strValD }
      else t)
    ⟨"", "", 0⟩

/-- The `DEST` loop of `parseDispatcherTargets`: non-`DEST` keys are
skipped, each `DEST` must be a structure. -/
def parseDests (dests : List (String × BValue)) (acc : List DispatcherTarget) :
    Except ScrapeError (List DispatcherTarget) :=
  match dests with
  | [] => .ok acc
  | d :: rest =>
    if d.1 = "DEST" then
      match d.2.structItems with
      | .error e => .error e
      | .ok props => parseDests rest (acc ++ [parseProps props])
    else parseDests rest acc

/-- The per-`SET` item loop of `parseDispatcherTargets`: `ID` must coerce
to an integer, each `TARGETS` group must be a structure whose `DEST`
entries accumulate; other keys are skipped. The state is the pair
`(setID, targets)` of the Go locals. -/
def parseSetItems (setItems : List (String × BValue)) (setID : Int)
    (targets : List DispatcherTarget) :
    Except ScrapeError (Int × List DispatcherTarget) :=
  match setItems with
  | [] => .ok (setID, targets)
  | s :: rest =>
    if s.1 = "ID" then
      match s.2.intVal with
      | .error e => .error e
      | .ok n => parseSetItems rest n targets
    else if s.1 = "TARGETS" then
      match s.2.structItems with
      | .error e => .error e
      | .ok dests =>
        match parseDests dests targets with
        | .error e => .error e
        | .ok ts => parseSetItems rest setID ts
    else parseSetItems rest setID targets

/-- Processing of one `SET` structure: after the item loop, a zero
`setID` (never assigned, or assigned the integer 0) fails with the
missing-set-ID error; only then are zero-target sets skipped, and each
target receives the set's ID. -/
def parseSet (setItems : List (String × BValue)) :
    Except ScrapeError (List DispatcherTarget) :=
  match parseSetItems setItems 0 [] with
  | .error e => .error e
  | .ok (setID, targets) =>
    if setID = 0 then .error .missingSetID
    else .ok (targets.map fun t => { t with SetID := setID })

/-- The `SET` loop of `parseDispatcherTargets`: non-`SET` keys are
skipped, each `SET` must be a structure; resolved targets accumulate. -/
def parseSets (sets : List (String × BValue)) (acc : List DispatcherTarget) :
    Except ScrapeError (List DispatcherTarget) :=
  match sets with
  | [] => .ok acc
  | s :: rest =>
    if s.1 = "SET" then
      match s.2.structItems with
      | .error e => .error e
      | .ok setItems =>
        match parseSet setItems with
        | .error e => .error e
        | .ok ts => parseSets rest (acc ++ ts)
    else parseSets rest acc

/-- The outermost loop of `parseDispatcherTargets`: non-`RECORDS` keys
are skipped, each `RECORDS` value must be a structure of sets. -/
def parseRecordsLoop (items : List (String × BValue)) (acc : List DispatcherTarget) :
    Except ScrapeError (List DispatcherTarget) :=
  match items with
  | [] => .ok acc
  | it :: rest =>
    if it.1 = "RECORDS" then
      match it.2.structItems with
      | .error e => .error e
      | .ok sets =>
        match parseSets sets acc with
        | .error e => .error e
        | .ok ts => parseRecordsLoop rest ts
    else parseRecordsLoop rest acc

/-- parseDispatcherTargets parses the "dispatcher.list" result and
returns a list of targets. -/
def parseDispatcherTargets (items : List (String × BValue)) :
    Except ScrapeError (List DispatcherTarget) :=
  parseRecordsLoop items []

/-! In the source, `parseDMQPeers` duplicates the body of
`parseDispatcherTargets` verbatim (same RECORDS → SET → TARGETS → DEST
descent, same URI / FLAGS / ID extraction, same missing-set-ID error)
while declaring return type `[]DMQPeer`: it appends the
`DispatcherTarget` values it builds to that `[]DMQPeer`, which does not
type-check in Go. We embed the computation its body performs, which
yields `DispatcherTarget` records, duplicating the definitions the way
the source duplicates the code. -/

/-- The `DEST` loop of `parseDMQPeers` (verbatim copy in the source). -/
def parseDestsDMQ (dests : List (String × BValue)) (acc : List DispatcherTarget) :
    Except ScrapeError (List DispatcherTarget) :=
  match dests with
  | [] => .ok acc
  | d :: rest =>
    if d.1 = "DEST" then
      match d.2.structItems with
      | .error e => .error e
      | .ok props => parseDestsDMQ rest (acc ++ [parseProps props])
    else parseDestsDMQ rest acc

/-- The per-`SET` item loop of `parseDMQPeers` (verbatim copy). -/
def parseSetItemsDMQ (setItems : List (String × BValue)) (setID : Int)
    (targets : List DispatcherTarget) :
    Except ScrapeError (Int × List DispatcherTarget) :=
  match setItems with
  | [] => .ok (setID, targets)
  | s :: rest =>
    if s.1 = "ID" then
      match s.2.intVal with
      | .error e => .error e
      | .ok n => parseSetItemsDMQ rest n targets
    else if s.1 = "TARGETS" then
      match s.2.structItems with
      | .error e => .error e
      | .ok dests =>
        match parseDestsDMQ dests targets with
        | .error e => .error e
        | .ok ts => parseSetItemsDMQ rest setID ts
    else parseSetItemsDMQ rest setID targets

/-- Processing of one `SET` structure in `parseDMQPeers` (verbatim
copy, including the missing-set-ID error). -/
def parseSetDMQ (setItems : List (String × BValue)) :
    Except ScrapeError (List DispatcherTarget) :=
  match parseSetItemsDMQ setItems 0 [] with
  | .error e => .error e
  | .ok (setID, targets) =>
    if setID = 0 then .error .missingSetID
    else .ok (targets.map fun t => { t with SetID := setID })

/-- The `SET` loop of `parseDMQPeers` (verbatim copy). -/
def parseSetsDMQ (sets : List (String × BValue)) (acc : List DispatcherTarget) :
    Except ScrapeError (List DispatcherTarget) :=
  match sets with
  | [] => .ok acc
  | s :: rest =>
    if s.1 = "SET" then
      match s.2.structItems with
      | .error e => .error e
      | .ok setItems =>
        match parseSetDMQ setItems with
        | .error e => .error e
        | .ok ts => parseSetsDMQ rest (acc ++ ts)
    else parseSetsDMQ rest acc

/-- The outermost loop of `parseDMQPeers` (verbatim copy). -/
def parseRecordsLoopDMQ (items : List (String × BValue)) (acc : List DispatcherTarget) :
    Except ScrapeError (List DispatcherTarget) :=
  match items with
  | [] => .ok acc
  | it :: rest =>
    if it.1 = "RECORDS" then
      match it.2.structItems with
      | .error e => .error e
      | .ok sets =>
        match parseSetsDMQ sets acc with
        | .error e => .error e
        | .ok ts => parseRecordsLoopDMQ rest ts
    else parseRecordsLoopDMQ rest acc

/-- parseDMQPeers as written in the source:  a verbatim duplicate of
`parseDispatcherTargets`. -/
def parseDMQPeers (items : List (String × BValue)) :
    Except ScrapeError (List DispatcherTarget) :=
  parseRecordsLoopDMQ items []

/-- Labels of one sample of the `peer` metric.  In the source these read
`peer.Host`, `peer.Status`, `peer.Local` from a `DMQPeer`, but the
values produced by `parseDMQPeers` are `DispatcherTarget` records (the
Go does not type-check here, and `DMQPeer.Local` is an `int` used where
a string map value is required); we carry the fields the code actually
fills, positionally. -/
def peerLabels (p : DispatcherTarget) : Labels :=
  [("host", p.URI), ("status", p.Flags), ("local", toString p.SetID)]

/-- Labels of one sample of the `target` metric of `dispatcher.list`
(`strconv.Itoa` on the set ID). -/
def targetLabels (t : DispatcherTarget) : Labels :=
  [("uri", t.URI), ("flags", t.Flags), ("setid", toString t.SetID)]

/-- The method dispatch of `scrapeMethod`, applied to the items of the
single structure record.  It mirrors the `switch method` of the source:
`sl.stats` / `tm.stats` use the code-bucket projection; `tls.info`,
`core.shmmem`, `core.tcp_info` and `dlg.stats_active` fall through to
the `dmq.list_nodes` branch, which runs `parseDMQPeers` and produces
`peer` samples of value 1; `core.uptime` is projected flat; and
`dispatcher.list` runs `parseDispatcherTargets` and produces `target`
samples of value 1. -/
def scrapeMethodItems (method : String) (items : List (String × BValue)) :
    Except ScrapeError Metrics :=
  if method == "sl.stats" || method == "tm.stats" then
    .ok (projectStats items)
  else if method == "tls.info" || method == "core.shmmem" || method == "core.tcp_info"
      || method == "dlg.stats_active" || method == "dmq.list_nodes" then
    match parseDMQPeers items with
    | .error e => .error e
    | .ok peers =>
      if peers.isEmpty then .ok []
      else .ok (peers.foldl (fun m p => m.appendAt "peer" ⟨1, peerLabels p⟩) [])
  else if method == "core.uptime" then
    .ok (projectFlat items)
  else if method == "dispatcher.list" then
    match parseDispatcherTargets items with
    | .error e => .error e
    | .ok targets =>
      if targets.isEmpty then .ok []
      else .ok (targets.foldl (fun m t => m.appendAt "target" ⟨1, targetLabels t⟩) [])
  else
    .ok []

/-- scrapeMethod, from the raw record sequence of one RPC call: the
`[500, message]` remote-error short-circuit comes first, then the
"expected 1 record, got n" check, then `records[0].StructItems()`, then
the method dispatch.  When the first record is the integer 500 but the
second record is not text, the Go unchecked type assertion
`records[1].Value.(string)` panics while building the error message;
the model marks that exit with `ScrapeError.panicTypeAssertion` (in Go
it is a crash, not an error return). -/
def scrapeMethod (method : String) (records : List BValue) :
    Except ScrapeError Metrics :=
  match records with
  | [BValue.vint c, second] =>
    if c = 500 then
      match second with
      | .vstr msg => .error (.remote c msg)
      | _ => .error .panicTypeAssertion
    else .error (.malformed 1 2)
  | [r] =>
    match r.structItems with
    | .error e => .error e
    | .ok items => scrapeMethodItems method items
  | rs => .error (.malformed 1 rs.length)

/-- The kind of a metric (`prometheus.ValueType`). -/
inductive ValueKind where
  | gauge
  | counter
deriving DecidableEq, Repr

/-- Metric is the definition of a metric. -/
structure Metric where
  Kind : ValueKind
  Name : String
  Help : String
  Method : String
deriving DecidableEq, Repr

/-- NewMetricGauge is a helper function to create a gauge. -/
def NewMetricGauge (name help method : String) : Metric :=
  ⟨.gauge, name, help, method⟩

/-- NewMetricCounter is a helper function to create a counter. -/
def NewMetricCounter (name help method : String) : Metric :=
  ⟨.counter, name, help, method⟩

/-- `namespace = "kamailio"`. -/
def namespaceName : String := "kamailio"

/-- implemented RPC methods. -/
def availableMethods : List String :=
  ["tm.stats", "sl.stats", "core.shmmem", "core.uptime", "core.tcp_info",
   "dispatcher.list", "tls.info", "dlg.stats_active", "dmq.list_nodes"]

/-- The metric catalog, keyed by method (`metricsList` in the source);
`none` models a missing map key. -/
def metricsList (method : String) : Option (List Metric) :=
  if method == "tm.stats" then some
    [NewMetricGauge "current" "Current transactions." "tm.stats",
     NewMetricGauge "waiting" "Waiting transactions." "tm.stats",
     NewMetricCounter "total" "Total transactions." "tm.stats",
     NewMetricCounter "total_local" "Total local transactions." "tm.stats",
     NewMetricCounter "rpl_received" "Number of reply received." "tm.stats",
     NewMetricCounter "rpl_generated" "Number of reply generated." "tm.stats",
     NewMetricCounter "rpl_sent" "Number of reply sent." "tm.stats",
     NewMetricCounter "created" "Created transactions." "tm.stats",
     NewMetricCounter "freed" "Freed transactions." "tm.stats",
     NewMetricCounter "delayed_free" "Delayed free transactions." "tm.stats",
     NewMetricCounter "codes" "Per-code counters." "tm.stats"]
  else if method == "sl.stats" then some
    [NewMetricCounter "codes" "Per-code counters." "sl.stats"]
  else if method == "core.shmmem" then some
    [NewMetricGauge "total" "Total shared memory." "core.shmmem",
     NewMetricGauge "free" "Free shared memory." "core.shmmem",
     NewMetricGauge "used" "Used shared memory." "core.shmmem",
     NewMetricGauge "real_used" "Real used shared memory." "core.shmmem",
     NewMetricGauge "max_used" "Max used shared memory." "core.shmmem",
     NewMetricGauge "fragments" "Number of fragments in shared memory." "core.shmmem"]
  else if method == "core.uptime" then some
    [NewMetricCounter "uptime" "Uptime in seconds." "core.uptime"]
  else if method == "core.tcp_info" then some
    [NewMetricGauge "readers" "Total TCP readers." "core.tcp_info",
     NewMetricGauge "max_connections" "Maximum TCP connections" "core.tcp_info",
     NewMetricGauge "max_tls_connections" "Maximum TLS connections." "core.tcp_info",
     NewMetricGauge "opened_connections" "Opened TCP connections." "core.tcp_info",
     NewMetricGauge "opened_tls_connections" "Opened TLS connections." "core.tcp_info",
     NewMetricGauge "write_queued_bytes" "Write queued bytes." "core.tcp_info"]
  else if method == "dispatcher.list" then some
    [NewMetricGauge "target" "Target status." "dispatcher.list"]
  else if method == "tls.info" then some
    [NewMetricGauge "opened_connections" "TLS Opened Connections." "tls.info",
     NewMetricGauge "max_connections" "TLS Max Connections." "tls.info"]
  else if method == "dlg.stats_active" then some
    [NewMetricGauge "starting" "Dialogs starting." "dlg.stats_active",
     NewMetricGauge "connecting" "Dialogs connecting." "dlg.stats_active",
     NewMetricGauge "answering" "Dialogs answering." "dlg.stats_active",
     NewMetricGauge "ongoing" "Dialogs ongoing." "dlg.stats_active",
     NewMetricGauge "all" "Dialogs all." "dlg.stats_active"]
  else if method == "dmq.list_nodes" then some
    [NewMetricGauge "status" "DMQ peer Status" "dmq.list_nodes",
     NewMetricGauge "local" "DMQ local" "dmq.list_nodes"]
  else none

/-- `strings.Replace(s, ".", "_", -1)`: the pattern is a single
character, so replacing every occurrence is a character-wise map. -/
def replaceDots (s : String) : String :=
  ⟨s.data.map fun c => if c = '.' then '_' else c⟩

/-- ExportedName returns a formatted Prometheus metric name, in the
form "namespace_method_metric" for a gauge and
"namespace_method_metric_total" for a counter; "meth.od" is transformed
into "meth_od". -/
def Metric.ExportedName (m : Metric) : String :=
  let suffix := if m.Kind = ValueKind.counter then m.Name ++ "_total" else m.Name
  namespaceName ++ "_" ++ replaceDots m.Method ++ "_" ++ suffix

/-- Insertion of a string into a sorted list (models the effect of
`sort.Strings`). -/
def insertSorted (s : String) : List String → List String
  | [] => [s]
  | x :: xs => if s ≤ x then s :: x :: xs else x :: insertSorted s xs

/-- `sort.Strings` on the key list collected from the label map. -/
def sortStrings (l : List String) : List String :=
  l.foldr insertSorted []

/-- LabelKeys returns the keys of the labels of m, sorted (the Go map
iteration order is unspecified, so the source sorts the keys). -/
def MetricValue.LabelKeys (m : MetricValue) : List String :=
  sortStrings (m.labels.map Prod.fst)

/-- LabelValues returns the values of the labels of m, in the order of
`LabelKeys`. -/
def MetricValue.LabelValues (m : MetricValue) : List String :=
  m.LabelKeys.map fun k => ((m.labels.lookup k).getD "")

/-- One metric as pushed to the Prometheus channel
(`prometheus.NewConstMetric` with the descriptor built from the metric
definition). -/
structure Emitted where
  name : String
  help : String
  kind : ValueKind
  value : Int
  labelKeys : List String
  labelValues : List String
deriving DecidableEq, Repr

/-- The samples emitted for one metric definition: every scraped value
stored under the definition's (local) name, under its exported name. -/
def emitDef (scraped : Metrics) (d : Metric) : List Emitted :=
  (scraped.find d.Name).map fun mv =>
    ⟨d.ExportedName, d.Help, d.Kind, mv.value, mv.LabelKeys, mv.LabelValues⟩

/-- The emission loop of `scrape` for one method: iterate the catalog
entry in order and emit the scraped values found under each declared
name (`if !found { continue }` is the empty-list case). -/
def emitMethod (method : String) (scraped : Metrics) : List Emitted :=
  match metricsList method with
  | none => []
  | some defs => defs.foldl (fun acc d => acc ++ emitDef scraped d) []

/-- A method call followed by `scrapeMethod`: the response function
models `fetchBINRPC` and may itself fail (transport error). -/
def runMethod (resp : String → Except ScrapeError (List BValue)) (method : String) :
    Except ScrapeError Metrics :=
  match resp method with
  | .error e => .error e
  | .ok records => scrapeMethod method records

/-- The method loop of `scrape`: for each configured method, panic if it
is not in the catalog, run the method, abort the cycle with the error if
it fails (everything emitted so far has already been pushed to the
channel), otherwise push its samples and continue. -/
def scrapeLoop (resp : String → Except ScrapeError (List BValue)) :
    List String → List Emitted → List Emitted × Option ScrapeError
  | [], acc => (acc, none)
  | m :: rest, acc =>
    match metricsList m with
    | none => (acc, some .panicInvalidMethod)
    | some _ =>
      match runMethod resp m with
      | .error e => (acc, some e)
      | .ok scraped => scrapeLoop resp rest (acc ++ emitMethod m scraped)

/-- One scrape cycle over the configured methods: the list of non-health
samples pushed to the channel, and the error that aborted the cycle, if
any. -/
def scrape (methods : List String) (resp : String → Except ScrapeError (List BValue)) :
    List Emitted × Option ScrapeError :=
  scrapeLoop resp methods []

/-- Exporter health state (`up`, `totalScrapes`, `failedScrapes`). -/
structure HealthState where
  totalScrapes : Nat
  failedScrapes : Nat
  up : Int
deriving DecidableEq, Repr

/-- Collect: one collection pass.  `totalScrapes` is incremented
unconditionally; on a scrape error `failedScrapes` is incremented and
`up` is set to 0, otherwise `up` is set to 1.  Returns the non-health
samples pushed during the cycle and the new health state. -/
def Collect (h : HealthState) (methods : List String)
    (resp : String → Except ScrapeError (List BValue)) :
    List Emitted × HealthState :=
  let r := scrape methods resp
  match r.2 with
  | some _ =>
    (r.1, { totalScrapes := h.totalScrapes + 1,
            failedScrapes := h.failedScrapes + 1, up := 0 })
  | none =>
    (r.1, { totalScrapes := h.totalScrapes + 1,
            failedScrapes := h.failedScrapes, up := 1 })

/-- The samples the code-bucket fields of `items` contribute to the
synthetic `codes` metric, in order. -/
def codeSamples (items : List (String × BValue)) : List MetricValue :=
  items.filterMap fun it =>
    if codeMatch it.1 then some ⟨it.2.intValD, [("code", it.1)]⟩ else none

/-- The malformed-response family of errors: the "expected 1 record,
got n" error of `scrapeMethod`, and the structure-coercion failure
surfaced by the binrpc decoding when the single record is not a
structure — in both, the response did not have the expected shape. -/
def isMalformedResponse : ScrapeError → Bool
  | .malformed _ _ => true
  | .notStruct => true
  | _ => false

/-- A well-formed `dispatcher.list` / peer-list response: one structure
record holding a `RECORDS` structure with the given set items. -/
def dispatcherResponse (sets : List (String × BValue)) : List BValue :=
  [.vstruct [("RECORDS", .vstruct sets)]]

/-- The decoded response of the C4 dispatcher example: one SET of ID 2
with two DEST entries. -/
def dispatcherExampleItems : List (String × BValue) :=
  [("RECORDS", .vstruct
    [("SET", .vstruct
      [("ID", .vint 2),
       ("TARGETS", .vstruct
         [("DEST", .vstruct [("URI", .vstr "sip:10.0.0.1"), ("FLAGS", .vstr "AP")]),
          ("DEST", .vstruct [("URI", .vstr "sip:10.0.0.2"), ("FLAGS", .vstr "D")])])])])]

/-- A peer-list shaped response with one resolved entry. -/
def dmqExampleItems : List (String × BValue) :=
  [("RECORDS", .vstruct
    [("SET", .vstruct
      [("ID", .vint 1),
       ("TARGETS", .vstruct
         [("DEST", .vstruct [("URI", .vstr "sip:n1"), ("FLAGS", .vstr "AP")])])])])]

/-- A transport model where `core.uptime` answers with a well-formed
response and every other method returns zero records (which fails the
"expected 1 record" check). -/
def respC7 (m : String) : Except ScrapeError (List BValue) :=
  if m == "core.uptime" then .ok [.vstruct [("uptime", .vint 12345)]]
  else .ok []

/-! ### Properties of the metrics map -/

theorem find_setKey_self (m : Metrics) (k : String) (v : List MetricValue) :
    (m.setKey k v).find k = v := by
  induction m with
  | nil => simp [Metrics.setKey, Metrics.find]
  | cons hd tl ih =>
    obtain ⟨k', v'⟩ := hd
    by_cases h : k' = k
    · simp [Metrics.setKey, h, Metrics.find]
    · simp [Metrics.setKey, h, Metrics.find, ih]

theorem find_setKey_ne (m : Metrics) (k : String) (v : List MetricValue)
    (k' : String) (h : k' ≠ k) : (m.setKey k v).find k' = m.find k' := by
  induction m with
  | nil => simp [Metrics.setKey, Metrics.find, Ne.symm h]
  | cons hd tl ih =>
    obtain ⟨k₁, v₁⟩ := hd
    by_cases h1 : k₁ = k
    · subst h1
      simp [Metrics.setKey, Metrics.find, Ne.symm h]
    · simp [Metrics.setKey, h1, Metrics.find, ih]

theorem find_appendAt_self (m : Metrics) (k : String) (v : MetricValue) :
    (m.appendAt k v).find k = m.find k ++ [v] := by
  induction m with
  | nil => simp [Metrics.appendAt, Metrics.find]
  | cons hd tl ih =>
    obtain ⟨k', v'⟩ := hd
    by_cases h : k' = k
    · simp [Metrics.appendAt, h, Metrics.find]
    · simp [Metrics.appendAt, h, Metrics.find, ih]

theorem find_appendAt_ne (m : Metrics) (k : String) (v : MetricValue)
    (k' : String) (h : k' ≠ k) : (m.appendAt k v).find k' = m.find k' := by
  induction m with
  | nil => simp [Metrics.appendAt, Metrics.find, Ne.symm h]
  | cons hd tl ih =>
    obtain ⟨k₁, v₁⟩ := hd
    by_cases h1 : k₁ = k
    · subst h1
      simp [Metrics.appendAt, Metrics.find, Ne.symm h]
    · simp [Metrics.appendAt, h1, Metrics.find, ih]

/-! ### Properties of the sl.stats / tm.stats projection -/

theorem ne_codes_of_codeMatch {k : String} (h : codeMatch k = true) :
    k ≠ "codes" := by
  intro he
  rw [he] at h
  exact absurd h (by decide)

theorem statsFold_find_untouched :
    ∀ (items : List (String × BValue)) (m₀ : Metrics) (k : String),
      k ∉ items.map Prod.fst → k ≠ "codes" →
      (items.foldl statsStep m₀).find k = m₀.find k := by
  intro items
  induction items with
  | nil => intro m₀ k _ _; rfl
  | cons it rest ih =>
    intro m₀ k hk hc
    rw [List.map_cons, List.mem_cons] at hk
    push_neg at hk
    rw [List.foldl_cons, ih _ _ hk.2 hc]
    by_cases hm : codeMatch it.1
    · simp only [statsStep, hm, if_true]
      exact find_appendAt_ne _ _ _ _ hc
    · simp only [statsStep, hm, if_false, Bool.false_eq_true]
      exact find_setKey_ne _ _ _ _ hk.1

theorem statsFold_find_codes :
    ∀ (items : List (String × BValue)) (m₀ : Metrics),
      "codes" ∉ items.map Prod.fst →
      (items.foldl statsStep m₀).find "codes" = m₀.find "codes" ++ codeSamples items := by
  intro items
  induction items with
  | nil => intro m₀ _; simp [codeSamples]
  | cons it rest ih =>
    intro m₀ hnc
    rw [List.map_cons, List.mem_cons] at hnc
    push_neg at hnc
    rw [List.foldl_cons, ih _ hnc.2]
    by_cases hm : codeMatch it.1
    · simp [statsStep, hm, codeSamples, List.filterMap_cons, find_appendAt_self]
    · simp [statsStep, hm, codeSamples, List.filterMap_cons,
        find_setKey_ne _ _ _ _ hnc.1]

theorem statsFold_find_code_key :
    ∀ (items : List (String × BValue)) (m₀ : Metrics) (k : String),
      codeMatch k = true →
      (items.foldl statsStep m₀).find k = m₀.find k := by
  intro items
  induction items with
  | nil => intro m₀ k _; rfl
  | cons it rest ih =>
    intro m₀ k hcm
    rw [List.foldl_cons, ih _ _ hcm]
    by_cases hm : codeMatch it.1
    · simp only [statsStep, hm, if_true]
      exact find_appendAt_ne _ _ _ _ (ne_codes_of_codeMatch hcm)
    · have hne : k ≠ it.1 := by
        intro he
        rw [he] at hcm
        simp [hcm] at hm
      simp only [statsStep, hm, if_false, Bool.false_eq_true]
      exact find_setKey_ne _ _ _ _ hne

theorem statsFold_find_plain :
    ∀ (items : List (String × BValue)) (m₀ : Metrics) (k : String) (v : BValue),
      (k, v) ∈ items → codeMatch k = false →
      (items.map Prod.fst).Nodup → "codes" ∉ items.map Prod.fst →
      (items.foldl statsStep m₀).find k = [⟨v.intValD, []⟩] := by
  intro items
  induction items with
  | nil => intro m₀ k v hmem _ _ _; cases hmem
  | cons it rest ih =>
    intro m₀ k v hmem hcm hnd hnc
    rw [List.map_cons, List.nodup_cons] at hnd
    rw [List.map_cons, List.mem_cons] at hnc
    push_neg at hnc
    rw [List.foldl_cons]
    rcases List.mem_cons.mp hmem with heq | hmem'
    · subst heq
      have hstep : statsStep m₀ (k, v) = m₀.setKey k [⟨v.intValD, []⟩] := by
        simp [statsStep, hcm]
      rw [hstep, statsFold_find_untouched _ _ _ hnd.1 (Ne.symm hnc.1),
        find_setKey_self]
    · exact ih _ _ _ hmem' hcm hnd.2 hnc.2

theorem codeSamples_filter_notMem :
    ∀ (items : List (String × BValue)) (k : String),
      k ∉ items.map Prod.fst →
      (codeSamples items).filter (fun s => decide (s.labels = [("code", k)])) = [] := by
  intro items
  induction items with
  | nil => intro k _; rfl
  | cons it rest ih =>
    intro k hk
    rw [List.map_cons, List.mem_cons] at hk
    push_neg at hk
    by_cases hm : codeMatch it.1
    · simp only [codeSamples, List.filterMap_cons, hm, if_true, List.filter_cons]
      rw [if_neg (by simp [Ne.symm hk.1])]
      exact ih _ hk.2
    · simp only [codeSamples, List.filterMap_cons, hm, if_false, Bool.false_eq_true]
      exact ih _ hk.2

theorem codeSamples_filter_mem :
    ∀ (items : List (String × BValue)) (k : String) (v : BValue),
      (k, v) ∈ items → codeMatch k = true → (items.map Prod.fst).Nodup →
      (codeSamples items).filter (fun s => decide (s.labels = [("code", k)])) =
        [⟨v.intValD, [("code", k)]⟩] := by
  intro items
  induction items with
  | nil => intro k v hmem _ _; cases hmem
  | cons it rest ih =>
    intro k v hmem hcm hnd
    rw [List.map_cons, List.nodup_cons] at hnd
    rcases List.mem_cons.mp hmem with heq | hmem'
    · subst heq
      simp only [codeSamples, List.filterMap_cons, hcm, if_true, List.filter_cons]
      rw [if_pos (by simp)]
      have hrest := codeSamples_filter_notMem rest k hnd.1
      simp only [codeSamples] at hrest
      rw [hrest]
    · have hkr : k ∈ rest.map Prod.fst := by
        exact List.mem_map_of_mem Prod.fst hmem'
      have hne : it.1 ≠ k := by
        intro he
        rw [he] at hnd
        exact hnd.1 hkr
      by_cases hm : codeMatch it.1
      · simp only [codeSamples, List.filterMap_cons, hm, if_true, List.filter_cons]
        rw [if_neg (by simp [hne])]
        exact ih _ _ hmem' hcm hnd.2
      · simp only [codeSamples, List.filterMap_cons, hm, if_false, Bool.false_eq_true]
        exact ih _ _ hmem' hcm hnd.2

/-- C1: for `tm.stats` and `sl.stats`, every top-level field whose key
matches the anchored `[0-9x]{3}` pattern yields exactly one sample of
the synthetic `codes` metric, labeled `code = key` with the field's
integer value, and no metric named after the key itself; every other
field yields exactly one label-free sample of the metric named after
the key.  (Stated for responses with pairwise-distinct field keys and
no field literally named `codes`, as in every kamailio response.) -/
theorem C1_stats_code_bucket_projection (method : String)
    (items : List (String × BValue))
    (hm : method = "tm.stats" ∨ method = "sl.stats")
    (hnd : (items.map Prod.fst).Nodup)
    (hnc : "codes" ∉ items.map Prod.fst) :
    ∃ m, scrapeMethodItems method items = .ok m ∧
      ∀ k v, (k, v) ∈ items →
        (codeMatch k = true →
          (m.find "codes").filter (fun s => decide (s.labels = [("code", k)])) =
            [⟨v.intValD, [("code", k)]⟩] ∧
          m.find k = []) ∧
        (codeMatch k = false → m.find k = [⟨v.intValD, []⟩]) := by
  refine ⟨projectStats items, ?_, ?_⟩
  · rcases hm with rfl | rfl <;> rfl
  · intro k v hmem
    refine ⟨fun hcm => ⟨?_, ?_⟩, fun hcm => ?_⟩
    · unfold projectStats
      rw [statsFold_find_codes items [] hnc]
      simpa using codeSamples_filter_mem items k v hmem hcm hnd
    · unfold projectStats
      rw [statsFold_find_code_key items [] k hcm]
      rfl
    · exact statsFold_find_plain items [] k v hmem hcm hnd hnc

/-- Witness for C1 at a concrete `sl.stats` response with a code-bucket
field `"200"` and a plain field `"waiting"`. -/
theorem C1_witness :
    ("sl.stats" = "tm.stats" ∨ "sl.stats" = "sl.stats") ∧
    ([("200", BValue.vint 666263), ("waiting", BValue.vint 0)].map Prod.fst).Nodup ∧
    "codes" ∉ [("200", BValue.vint 666263), ("waiting", BValue.vint 0)].map Prod.fst ∧
    (∃ m, scrapeMethodItems "sl.stats"
        [("200", BValue.vint 666263), ("waiting", BValue.vint 0)] = .ok m ∧
      ∀ k v, (k, v) ∈ [("200", BValue.vint 666263), ("waiting", BValue.vint 0)] →
        (codeMatch k = true →
          (m.find "codes").filter (fun s => decide (s.labels = [("code", k)])) =
            [⟨v.intValD, [("code", k)]⟩] ∧
          m.find k = []) ∧
        (codeMatch k = false → m.find k = [⟨v.intValD, []⟩])) :=
  ⟨Or.inr rfl, by decide, by decide,
   C1_stats_code_bucket_projection "sl.stats" _ (Or.inr rfl) (by decide) (by decide)⟩

/-! ### Properties of the dispatcher.list parsing -/

theorem scrapeMethod_single_struct (method : String) (items : List (String × BValue)) :
    scrapeMethod method [BValue.vstruct items] = scrapeMethodItems method items := rfl

theorem parseDispatcherTargets_records (sets : List (String × BValue)) :
    parseDispatcherTargets [("RECORDS", BValue.vstruct sets)] = parseSets sets [] := by
  show (match parseSets sets [] with
        | .error e => Except.error e
        | .ok ts => parseRecordsLoop [] ts) = parseSets sets []
  cases parseSets sets [] <;> rfl

theorem scrapeMethodItems_dispatcher (items : List (String × BValue)) :
    scrapeMethodItems "dispatcher.list" items =
      match parseDispatcherTargets items with
      | .error e => .error e
      | .ok targets =>
        if targets.isEmpty then .ok []
        else .ok (targets.foldl (fun m t => m.appendAt "target" ⟨1, targetLabels t⟩) []) := rfl

theorem scrapeMethod_dispatcherResponse (sets : List (String × BValue)) :
    scrapeMethod "dispatcher.list" (dispatcherResponse sets) =
      match parseSets sets [] with
      | .error e => .error e
      | .ok targets =>
        if targets.isEmpty then .ok []
        else .ok (targets.foldl (fun m t => m.appendAt "target" ⟨1, targetLabels t⟩) []) := by
  rw [show scrapeMethod "dispatcher.list" (dispatcherResponse sets) =
        scrapeMethodItems "dispatcher.list" [("RECORDS", BValue.vstruct sets)] from rfl,
      scrapeMethodItems_dispatcher, parseDispatcherTargets_records]

theorem parseSets_append (l₁ l₂ : List (String × BValue)) (acc : List DispatcherTarget) :
    parseSets (l₁ ++ l₂) acc =
      match parseSets l₁ acc with
      | .error e => .error e
      | .ok acc' => parseSets l₂ acc' := by
  induction l₁ generalizing acc with
  | nil => simp [parseSets]
  | cons s rest ih =>
    by_cases hs : s.1 = "SET"
    · cases hsi : s.2.structItems with
      | error e =>
        have h1 : parseSets ((s :: rest) ++ l₂) acc = .error e := by
          simp [List.cons_append, parseSets, if_pos hs, hsi]
        have h2 : parseSets (s :: rest) acc = .error e := by
          simp [parseSets, if_pos hs, hsi]
        rw [h1, h2]
      | ok si =>
        cases hps : parseSet si with
        | error e =>
          have h1 : parseSets ((s :: rest) ++ l₂) acc = .error e := by
            simp [List.cons_append, parseSets, if_pos hs, hsi, hps]
          have h2 : parseSets (s :: rest) acc = .error e := by
            simp [parseSets, if_pos hs, hsi, hps]
          rw [h1, h2]
        | ok ts =>
          have h1 : parseSets ((s :: rest) ++ l₂) acc =
              parseSets (rest ++ l₂) (acc ++ ts) := by
            simp [List.cons_append, parseSets, if_pos hs, hsi, hps]
          have h2 : parseSets (s :: rest) acc = parseSets rest (acc ++ ts) := by
            simp [parseSets, if_pos hs, hsi, hps]
          rw [h1, h2]
          exact ih (acc ++ ts)
    · have h1 : parseSets ((s :: rest) ++ l₂) acc = parseSets (rest ++ l₂) acc := by
        simp [List.cons_append, parseSets, if_neg hs]
      have h2 : parseSets (s :: rest) acc = parseSets rest acc := by
        simp [parseSets, if_neg hs]
      rw [h1, h2]
      exact ih acc

theorem parseSetItems_no_id :
    ∀ (s : List (String × BValue)) (id₀ : Int) (t₀ : List DispatcherTarget),
      "ID" ∉ s.map Prod.fst →
      (∃ e, parseSetItems s id₀ t₀ = .error e) ∨
      (∃ ts, parseSetItems s id₀ t₀ = .ok (id₀, ts)) := by
  intro s
  induction s with
  | nil => intro id₀ t₀ _; exact Or.inr ⟨t₀, rfl⟩
  | cons it rest ih =>
    intro id₀ t₀ hid
    rw [List.map_cons, List.mem_cons] at hid
    push_neg at hid
    have hne : it.1 ≠ "ID" := Ne.symm hid.1
    by_cases ht : it.1 = "TARGETS"
    · cases hsi : it.2.structItems with
      | error e =>
        refine Or.inl ⟨e, ?_⟩
        simp [parseSetItems, if_neg hne, if_pos ht, hsi]
      | ok dests =>
        cases hpd : parseDests dests t₀ with
        | error e =>
          refine Or.inl ⟨e, ?_⟩
          simp [parseSetItems, if_neg hne, if_pos ht, hsi, hpd]
        | ok ts =>
          have heq : parseSetItems (it :: rest) id₀ t₀ = parseSetItems rest id₀ ts := by
            simp [parseSetItems, if_neg hne, if_pos ht, hsi, hpd]
          rw [heq]
          exact ih id₀ ts hid.2
    · have heq : parseSetItems (it :: rest) id₀ t₀ = parseSetItems rest id₀ t₀ := by
        simp [parseSetItems, if_neg hne, if_neg ht]
      rw [heq]
      exact ih id₀ t₀ hid.2

theorem parseSet_missingID (s : List (String × BValue))
    (r : Int × List DispatcherTarget)
    (hid : "ID" ∉ s.map Prod.fst) (hok : parseSetItems s 0 [] = .ok r) :
    parseSet s = .error .missingSetID := by
  rcases parseSetItems_no_id s 0 [] hid with ⟨e, he⟩ | ⟨ts, hts⟩
  · rw [he] at hok
    cases hok
  · simp [parseSet, hts]

theorem parseSets_all_empty :
    ∀ (setsItems : List (List (String × BValue))),
      (∀ s ∈ setsItems, ∃ n, n ≠ 0 ∧ parseSetItems s 0 [] = .ok (n, [])) →
      parseSets (setsItems.map fun s => ("SET", BValue.vstruct s)) [] = .ok [] := by
  intro setsItems
  induction setsItems with
  | nil => intro _; rfl
  | cons s rest ih =>
    intro h
    obtain ⟨n, hn, hs⟩ := h s (List.mem_cons_self s rest)
    have hset : parseSet s = .ok [] := by simp [parseSet, hs, hn]
    simp only [List.map_cons, parseSets, BValue.structItems, hset, if_pos rfl]
    simpa using ih (fun t ht => h t (List.mem_cons_of_mem s ht))

/-- C4: projecting the dispatcher.list response with one SET of ID 2
holding two DEST entries yields exactly two samples of the `target`
metric, each of value 1 and labeled with the entry's URI, FLAGS and the
set ID, and no other samples. -/
theorem C4_dispatcher_projection :
    scrapeMethod "dispatcher.list" [.vstruct dispatcherExampleItems] =
      .ok [("target",
        [⟨1, [("uri", "sip:10.0.0.1"), ("flags", "AP"), ("setid", "2")]⟩,
         ⟨1, [("uri", "sip:10.0.0.2"), ("flags", "D"), ("setid", "2")]⟩])] := rfl

/-- C5 counterexample: a SET that *has* an ID field (of integer value 0)
and a TARGETS group with zero DEST entries fails the whole method with
the missing-set-ID error, contradicting the claim that any SET with an
ID field and zero resolved targets is skipped without error. -/
theorem C5_counterexample :
    scrapeMethod "dispatcher.list"
      (dispatcherResponse
        [("SET", BValue.vstruct [("ID", BValue.vint 0), ("TARGETS", BValue.vstruct [])])]) =
      .error .missingSetID := rfl

/-- C5 (amended): every SET group with an ID field of *nonzero* integer
value whose TARGETS groups resolve to zero DEST entries contributes
zero `target` samples and causes no error; whereas a SET group with no
ID field at all (whose items otherwise decode) fails the whole method's
projection with the missing-set-ID error. -/
theorem C5_set_projection
    (setsItems : List (List (String × BValue)))
    (pre : List (String × BValue)) (s : List (String × BValue))
    (post : List (String × BValue)) (acc : List DispatcherTarget)
    (r : Int × List DispatcherTarget)
    (hall : ∀ t ∈ setsItems, ∃ n, n ≠ 0 ∧ parseSetItems t 0 [] = .ok (n, []))
    (hpre : parseSets pre [] = .ok acc)
    (hid : "ID" ∉ s.map Prod.fst)
    (hsok : parseSetItems s 0 [] = .ok r) :
    scrapeMethod "dispatcher.list"
      (dispatcherResponse (setsItems.map fun t => ("SET", BValue.vstruct t))) = .ok [] ∧
    scrapeMethod "dispatcher.list"
      (dispatcherResponse (pre ++ ("SET", BValue.vstruct s) :: post)) =
      .error .missingSetID := by
  constructor
  · rw [scrapeMethod_dispatcherResponse, parseSets_all_empty setsItems hall]
    rfl
  · rw [scrapeMethod_dispatcherResponse]
    have h2 : parseSets (pre ++ ("SET", BValue.vstruct s) :: post) [] =
        .error .missingSetID := by
      rw [parseSets_append pre (("SET", BValue.vstruct s) :: post) [], hpre]
      simp [parseSets, BValue.structItems, parseSet_missingID s r hid hsok]
    rw [h2]

/-- Witness for C5 (amended) at a one-set response with ID 3 and no
targets, and a one-set response with no ID field. -/
theorem C5_witness :
    (∀ t ∈ [[("ID", BValue.vint 3), ("TARGETS", BValue.vstruct [])]],
       ∃ n, n ≠ 0 ∧ parseSetItems t 0 [] = .ok (n, [])) ∧
    parseSets ([] : List (String × BValue)) [] = .ok [] ∧
    "ID" ∉ [("TARGETS", BValue.vstruct [])].map Prod.fst ∧
    parseSetItems [("TARGETS", BValue.vstruct [])] 0 [] = .ok (0, []) ∧
    (scrapeMethod "dispatcher.list"
       (dispatcherResponse
         ([[("ID", BValue.vint 3), ("TARGETS", BValue.vstruct [])]].map
           fun t => ("SET", BValue.vstruct t))) = .ok [] ∧
     scrapeMethod "dispatcher.list"
       (dispatcherResponse
         ([] ++ ("SET", BValue.vstruct [("TARGETS", BValue.vstruct [])]) :: [])) =
       .error .missingSetID) := by
  have hall : ∀ t ∈ [[("ID", BValue.vint 3), ("TARGETS", BValue.vstruct [])]],
      ∃ n, n ≠ 0 ∧ parseSetItems t 0 [] = .ok (n, []) := by
    intro t ht
    rw [List.mem_singleton] at ht
    subst ht
    exact ⟨3, by decide, rfl⟩
  exact ⟨hall, rfl, by decide, rfl,
    C5_set_projection _ [] _ [] [] (0, []) hall rfl (by decide) rfl⟩

/-- C9: a SET whose ID field is present with integer value 0 is treated
identically to a SET with no ID field at all — `parseSet` on a set whose
item list starts with `("ID", 0)` equals `parseSet` without that item —
and in both cases the whole method's projection fails with the
missing-set-ID error even when the set resolves zero targets (the
zero-target skip sits after the ID check). -/
theorem C9_zero_set_id :
    (∀ rest, parseSet (("ID", BValue.vint 0) :: rest) = parseSet rest) ∧
    scrapeMethod "dispatcher.list"
      (dispatcherResponse
        [("SET", BValue.vstruct [("ID", BValue.vint 0), ("TARGETS", BValue.vstruct [])])]) =
      .error .missingSetID ∧
    scrapeMethod "dispatcher.list"
      (dispatcherResponse [("SET", BValue.vstruct [("TARGETS", BValue.vstruct [])])]) =
      .error .missingSetID :=
  ⟨fun _ => rfl, rfl, rfl⟩

/-! ### Decode error handling -/

/-- C3 counterexample: the sequence `[Int(500), Int(7)]` is not the
integer-plus-text remote-error form and is not exactly one structure
record, so the claim says it fails with a MalformedResponse error; the
code instead executes the unchecked type assertion
`records[1].Value.(string)` and panics — the model's result is the
panic marker, which is not in the malformed-response family. -/
theorem C3_counterexample :
    scrapeMethod "tm.stats" [BValue.vint 500, BValue.vint 7] =
      .error .panicTypeAssertion ∧
    isMalformedResponse .panicTypeAssertion = false :=
  ⟨rfl, rfl⟩

/-- C3 (amended): a record sequence that is exactly an integer record
of the server error code 500 followed by one text record fails with
the remote error carrying that code and message, short-circuiting
before any structural decoding; a sequence of the integer 500 followed
by one non-text record makes the code panic on the unchecked
`records[1].Value.(string)` type assertion; any other sequence that is
not exactly one structure record fails with an error of the
malformed-response family (the "expected 1 record, got n" error, or
the library's structure-coercion error when the single record is not a
structure).  In no case are samples produced. -/
theorem C3_decode_short_circuit (method : String) (records : List BValue) :
    (∀ msg, records = [BValue.vint 500, BValue.vstr msg] →
      scrapeMethod method records = .error (.remote 500 msg)) ∧
    (∀ second, records = [BValue.vint 500, second] →
      (∀ msg, second ≠ BValue.vstr msg) →
      scrapeMethod method records = .error .panicTypeAssertion) ∧
    ((∀ x, records ≠ [BValue.vint 500, x]) →
     (∀ items, records ≠ [BValue.vstruct items]) →
      ∃ e, scrapeMethod method records = .error e ∧ isMalformedResponse e = true) := by
  refine ⟨?_, ?_, ?_⟩
  · rintro msg rfl
    rfl
  · rintro second rfl hns
    cases second with
    | vint n => rfl
    | vstr s => exact absurd rfl (hns s)
    | vstruct l => rfl
  · intro h5 hstruct
    rcases records with _ | ⟨r1, _ | ⟨r2, _ | ⟨r3, rest⟩⟩⟩
    · exact ⟨.malformed 1 0, rfl, rfl⟩
    · cases r1 with
      | vint n => exact ⟨.notStruct, rfl, rfl⟩
      | vstr s => exact ⟨.notStruct, rfl, rfl⟩
      | vstruct items => exact absurd rfl (hstruct items)
    · cases r1 with
      | vint c =>
        by_cases hc : c = 500
        · subst hc
          exact absurd rfl (h5 r2)
        · exact ⟨.malformed 1 2, by simp [scrapeMethod, hc], rfl⟩
      | vstr s => exact ⟨.malformed 1 2, rfl, rfl⟩
      | vstruct l => exact ⟨.malformed 1 2, rfl, rfl⟩
    · refine ⟨.malformed 1 (r1 :: r2 :: r3 :: rest).length, ?_, rfl⟩
      cases r1 <;> rfl

/-- Witness for C3 (amended): `[500, "no such module"]` gives the
remote error, `[500, 7]` reaches the type-assertion panic, and a lone
integer record gives a malformed-response error. -/
theorem C3_witness :
    scrapeMethod "tm.stats" [BValue.vint 500, BValue.vstr "no such module"] =
      .error (.remote 500 "no such module") ∧
    scrapeMethod "tm.stats" [BValue.vint 500, BValue.vint 7] =
      .error .panicTypeAssertion ∧
    ∃ e, scrapeMethod "tm.stats" [BValue.vint 7] = .error e ∧
      isMalformedResponse e = true :=
  ⟨(C3_decode_short_circuit "tm.stats"
      [BValue.vint 500, BValue.vstr "no such module"]).1 "no such module" rfl,
   (C3_decode_short_circuit "tm.stats" [BValue.vint 500, BValue.vint 7]).2.1
      (BValue.vint 7) rfl (fun msg h => BValue.noConfusion h),
   (C3_decode_short_circuit "tm.stats" [BValue.vint 7]).2.2
      (fun x h => by simp at h)
      (fun items h => BValue.noConfusion (List.cons.inj h).1)⟩

/-! ### The duplicated dmq descent -/

theorem parseDestsDMQ_eq :
    ∀ (dests : List (String × BValue)) (acc : List DispatcherTarget),
      parseDestsDMQ dests acc = parseDests dests acc := by
  intro dests
  induction dests with
  | nil => intro acc; rfl
  | cons d rest ih =>
    intro acc
    by_cases hd : d.1 = "DEST"
    · cases hsi : d.2.structItems with
      | error e =>
        have h1 : parseDestsDMQ (d :: rest) acc = .error e := by
          simp [parseDestsDMQ, if_pos hd, hsi]
        have h2 : parseDests (d :: rest) acc = .error e := by
          simp [parseDests, if_pos hd, hsi]
        rw [h1, h2]
      | ok props =>
        have h1 : parseDestsDMQ (d :: rest) acc =
            parseDestsDMQ rest (acc ++ [parseProps props]) := by
          simp [parseDestsDMQ, if_pos hd, hsi]
        have h2 : parseDests (d :: rest) acc =
            parseDests rest (acc ++ [parseProps props]) := by
          simp [parseDests, if_pos hd, hsi]
        rw [h1, h2, ih]
    · have h1 : parseDestsDMQ (d :: rest) acc = parseDestsDMQ rest acc := by
        simp [parseDestsDMQ, if_neg hd]
      have h2 : parseDests (d :: rest) acc = parseDests rest acc := by
        simp [parseDests, if_neg hd]
      rw [h1, h2, ih]

theorem parseSetItemsDMQ_eq :
    ∀ (s : List (String × BValue)) (id₀ : Int) (t₀ : List DispatcherTarget),
      parseSetItemsDMQ s id₀ t₀ = parseSetItems s id₀ t₀ := by
  intro s
  induction s with
  | nil => intro id₀ t₀; rfl
  | cons it rest ih =>
    intro id₀ t₀
    by_cases hi : it.1 = "ID"
    · cases hv : it.2.intVal with
      | error e =>
        have h1 : parseSetItemsDMQ (it :: rest) id₀ t₀ = .error e := by
          simp [parseSetItemsDMQ, if_pos hi, hv]
        have h2 : parseSetItems (it :: rest) id₀ t₀ = .error e := by
          simp [parseSetItems, if_pos hi, hv]
        rw [h1, h2]
      | ok n =>
        have h1 : parseSetItemsDMQ (it :: rest) id₀ t₀ = parseSetItemsDMQ rest n t₀ := by
          simp [parseSetItemsDMQ, if_pos hi, hv]
        have h2 : parseSetItems (it :: rest) id₀ t₀ = parseSetItems rest n t₀ := by
          simp [parseSetItems, if_pos hi, hv]
        rw [h1, h2, ih]
    · by_cases ht : it.1 = "TARGETS"
      · cases hsi : it.2.structItems with
        | error e =>
          have h1 : parseSetItemsDMQ (it :: rest) id₀ t₀ = .error e := by
            simp [parseSetItemsDMQ, if_neg hi, if_pos ht, hsi]
          have h2 : parseSetItems (it :: rest) id₀ t₀ = .error e := by
            simp [parseSetItems, if_neg hi, if_pos ht, hsi]
          rw [h1, h2]
        | ok dests =>
          cases hpd : parseDests dests t₀ with
          | error e =>
            have h1 : parseSetItemsDMQ (it :: rest) id₀ t₀ = .error e := by
              simp [parseSetItemsDMQ, if_neg hi, if_pos ht, hsi, parseDestsDMQ_eq, hpd]
            have h2 : parseSetItems (it :: rest) id₀ t₀ = .error e := by
              simp [parseSetItems, if_neg hi, if_pos ht, hsi, hpd]
            rw [h1, h2]
          | ok ts =>
            have h1 : parseSetItemsDMQ (it :: rest) id₀ t₀ =
                parseSetItemsDMQ rest id₀ ts := by
              simp [parseSetItemsDMQ, if_neg hi, if_pos ht, hsi, parseDestsDMQ_eq, hpd]
            have h2 : parseSetItems (it :: rest) id₀ t₀ = parseSetItems rest id₀ ts := by
              simp [parseSetItems, if_neg hi, if_pos ht, hsi, hpd]
            rw [h1, h2, ih]
      · have h1 : parseSetItemsDMQ (it :: rest) id₀ t₀ = parseSetItemsDMQ rest id₀ t₀ := by
          simp [parseSetItemsDMQ, if_neg hi, if_neg ht]
        have h2 : parseSetItems (it :: rest) id₀ t₀ = parseSetItems rest id₀ t₀ := by
          simp [parseSetItems, if_neg hi, if_neg ht]
        rw [h1, h2, ih]

theorem parseSetDMQ_eq (s : List (String × BValue)) : parseSetDMQ s = parseSet s := by
  unfold parseSetDMQ parseSet
  rw [parseSetItemsDMQ_eq]

theorem parseSetsDMQ_eq :
    ∀ (sets : List (String × BValue)) (acc : List DispatcherTarget),
      parseSetsDMQ sets acc = parseSets sets acc := by
  intro sets
  induction sets with
  | nil => intro acc; rfl
  | cons s rest ih =>
    intro acc
    by_cases hs : s.1 = "SET"
    · cases hsi : s.2.structItems with
      | error e =>
        have h1 : parseSetsDMQ (s :: rest) acc = .error e := by
          simp [parseSetsDMQ, if_pos hs, hsi]
        have h2 : parseSets (s :: rest) acc = .error e := by
          simp [parseSets, if_pos hs, hsi]
        rw [h1, h2]
      | ok si =>
        cases hps : parseSet si with
        | error e =>
          have h1 : parseSetsDMQ (s :: rest) acc = .error e := by
            simp [parseSetsDMQ, if_pos hs, hsi, parseSetDMQ_eq, hps]
          have h2 : parseSets (s :: rest) acc = .error e := by
            simp [parseSets, if_pos hs, hsi, hps]
          rw [h1, h2]
        | ok ts =>
          have h1 : parseSetsDMQ (s :: rest) acc = parseSetsDMQ rest (acc ++ ts) := by
            simp [parseSetsDMQ, if_pos hs, hsi, parseSetDMQ_eq, hps]
          have h2 : parseSets (s :: rest) acc = parseSets rest (acc ++ ts) := by
            simp [parseSets, if_pos hs, hsi, hps]
          rw [h1, h2, ih]
    · have h1 : parseSetsDMQ (s :: rest) acc = parseSetsDMQ rest acc := by
        simp [parseSetsDMQ, if_neg hs]
      have h2 : parseSets (s :: rest) acc = parseSets rest acc := by
        simp [parseSets, if_neg hs]
      rw [h1, h2, ih]

theorem parseRecordsLoopDMQ_eq :
    ∀ (items : List (String × BValue)) (acc : List DispatcherTarget),
      parseRecordsLoopDMQ items acc = parseRecordsLoop items acc := by
  intro items
  induction items with
  | nil => intro acc; rfl
  | cons it rest ih =>
    intro acc
    by_cases hr : it.1 = "RECORDS"
    · cases hsi : it.2.structItems with
      | error e =>
        have h1 : parseRecordsLoopDMQ (it :: rest) acc = .error e := by
          simp [parseRecordsLoopDMQ, if_pos hr, hsi]
        have h2 : parseRecordsLoop (it :: rest) acc = .error e := by
          simp [parseRecordsLoop, if_pos hr, hsi]
        rw [h1, h2]
      | ok sets =>
        cases hps : parseSets sets acc with
        | error e =>
          have h1 : parseRecordsLoopDMQ (it :: rest) acc = .error e := by
            simp [parseRecordsLoopDMQ, if_pos hr, hsi, parseSetsDMQ_eq, hps]
          have h2 : parseRecordsLoop (it :: rest) acc = .error e := by
            simp [parseRecordsLoop, if_pos hr, hsi, hps]
          rw [h1, h2]
        | ok ts =>
          have h1 : parseRecordsLoopDMQ (it :: rest) acc = parseRecordsLoopDMQ rest ts := by
            simp [parseRecordsLoopDMQ, if_pos hr, hsi, parseSetsDMQ_eq, hps]
          have h2 : parseRecordsLoop (it :: rest) acc = parseRecordsLoop rest ts := by
            simp [parseRecordsLoop, if_pos hr, hsi, hps]
          rw [h1, h2, ih]
    · have h1 : parseRecordsLoopDMQ (it :: rest) acc = parseRecordsLoopDMQ rest acc := by
        simp [parseRecordsLoopDMQ, if_neg hr]
      have h2 : parseRecordsLoop (it :: rest) acc = parseRecordsLoop rest acc := by
        simp [parseRecordsLoop, if_neg hr]
      rw [h1, h2, ih]

/-- C6: the parsing behind the `peer` branch (`dlg.stats_active`,
`dmq.list_nodes` and the methods that fall through to it) performs
exactly the recursive RECORDS → SET → TARGETS → DEST descent of
`dispatcher.list` — the two parsing functions agree on every input —
and a response with no matching records yields an empty metric set and
no error.  (The construction of the `peer` samples themselves does not
type-check in the source; see `peerLabels`.) -/
theorem C6_dmq_descent :
    (∀ items, parseDMQPeers items = parseDispatcherTargets items) ∧
    scrapeMethod "dmq.list_nodes" [BValue.vstruct [("x", BValue.vint 1)]] = .ok [] ∧
    scrapeMethod "dlg.stats_active" [BValue.vstruct [("x", BValue.vint 1)]] = .ok [] :=
  ⟨fun items => parseRecordsLoopDMQ_eq items [], rfl, rfl⟩

/-- C2 evaluated on flat struct responses: `core.uptime` maps every
field 1:1 to a label-free sample, but `core.shmmem`, `core.tcp_info`
and `tls.info` are routed through the peer parsing, which finds no
`RECORDS` key in a flat response and therefore produces *no* samples at
all — their catalog gauges are never fed. -/
theorem C2_flat_methods_eval :
    scrapeMethod "core.uptime" [BValue.vstruct [("uptime", BValue.vint 12345)]] =
      .ok [("uptime", [⟨12345, []⟩])] ∧
    scrapeMethod "core.shmmem"
      [BValue.vstruct [("total", BValue.vint 67108864), ("free", BValue.vint 61189608),
        ("used", BValue.vint 2590984)]] = .ok [] ∧
    scrapeMethod "core.tcp_info" [BValue.vstruct [("readers", BValue.vint 8)]] = .ok [] ∧
    scrapeMethod "tls.info"
      [BValue.vstruct [("opened_connections", BValue.vint 5)]] = .ok [] :=
  ⟨rfl, rfl, rfl, rfl⟩

/-! ### The scrape cycle -/

theorem scrapeLoop_acc :
    ∀ (ms : List String) (resp : String → Except ScrapeError (List BValue))
      (acc : List Emitted),
      scrapeLoop resp ms acc =
        (acc ++ (scrapeLoop resp ms []).1, (scrapeLoop resp ms []).2) := by
  intro ms
  induction ms with
  | nil => intro resp acc; simp [scrapeLoop]
  | cons m rest ih =>
    intro resp acc
    cases hml : metricsList m with
    | none =>
      have h1 : scrapeLoop resp (m :: rest) acc = (acc, some .panicInvalidMethod) := by
        simp [scrapeLoop, hml]
      have h2 : scrapeLoop resp (m :: rest) [] = ([], some .panicInvalidMethod) := by
        simp [scrapeLoop, hml]
      rw [h1, h2]
      simp
    | some defs =>
      cases hrm : runMethod resp m with
      | error e =>
        have h1 : scrapeLoop resp (m :: rest) acc = (acc, some e) := by
          simp [scrapeLoop, hml, hrm]
        have h2 : scrapeLoop resp (m :: rest) [] = ([], some e) := by
          simp [scrapeLoop, hml, hrm]
        rw [h1, h2]
        simp
      | ok scraped =>
        have h1 : scrapeLoop resp (m :: rest) acc =
            scrapeLoop resp rest (acc ++ emitMethod m scraped) := by
          simp [scrapeLoop, hml, hrm]
        have h2 : scrapeLoop resp (m :: rest) [] =
            scrapeLoop resp rest (emitMethod m scraped) := by
          simp [scrapeLoop, hml, hrm]
        rw [h1, h2, ih resp (acc ++ emitMethod m scraped), ih resp (emitMethod m scraped)]
        simp [List.append_assoc]

/-- C7 counterexample: in a cycle over `core.uptime` then `sl.stats`
where `sl.stats` fails (zero records), the cycle aborts with that error
but the sample of the earlier successful method has already been pushed
to the channel — the emitted list of the failed cycle is not empty,
contradicting the claim that a failing cycle emits no non-health
sample at all. -/
theorem C7_counterexample :
    scrape ["core.uptime", "sl.stats"] respC7 =
      ([⟨"kamailio_core_uptime_uptime_total", "Uptime in seconds.", .counter,
          12345, [], []⟩],
       some (.malformed 1 0)) ∧
    (scrape ["core.uptime", "sl.stats"] respC7).1 ≠ [] :=
  ⟨rfl, by decide⟩

/-- C7 (amended): when the call/decode/projection of a method fails,
the cycle stops at that method and is recorded as failed with that
error as the single cause; no sample of the failing method or of any
later method is emitted, but the samples of the methods processed
earlier in the same cycle have already been emitted — the failed
cycle's output is exactly the output of the successful prefix. -/
theorem C7_partial_emission :
    ∀ (pre : List String) (m : String) (post : List String)
      (resp : String → Except ScrapeError (List BValue)) (e : ScrapeError),
      (∀ m' ∈ pre, (metricsList m').isSome = true ∧ ∃ s, runMethod resp m' = .ok s) →
      (metricsList m).isSome = true →
      runMethod resp m = .error e →
      scrape (pre ++ m :: post) resp = ((scrape pre resp).1, some e) := by
  intro pre
  induction pre with
  | nil =>
    intro m post resp e _ hm he
    obtain ⟨defs, hdefs⟩ := Option.isSome_iff_exists.mp hm
    simp [scrape, scrapeLoop, hdefs, he]
  | cons p pre' ih =>
    intro m post resp e hpre hm he
    obtain ⟨hps, s, hs⟩ := hpre p (List.mem_cons_self p pre')
    obtain ⟨pdefs, hpdefs⟩ := Option.isSome_iff_exists.mp hps
    have h1 : scrape ((p :: pre') ++ m :: post) resp =
        scrapeLoop resp (pre' ++ m :: post) (emitMethod p s) := by
      simp [scrape, scrapeLoop, hpdefs, hs]
    have h2 : scrape (p :: pre') resp = scrapeLoop resp pre' (emitMethod p s) := by
      simp [scrape, scrapeLoop, hpdefs, hs]
    have ih' := ih m post resp e (fun m' hm' => hpre m' (List.mem_cons_of_mem p hm')) hm he
    rw [h1, h2, scrapeLoop_acc (pre' ++ m :: post) resp (emitMethod p s),
        scrapeLoop_acc pre' resp (emitMethod p s),
        show scrapeLoop resp (pre' ++ m :: post) [] = scrape (pre' ++ m :: post) resp from rfl,
        show scrapeLoop resp pre' [] = scrape pre' resp from rfl, ih']

/-- Witness for C7 (amended): `core.uptime` succeeds, then `sl.stats`
fails; the failed cycle's output equals the one-method prefix output
with the failure as cause. -/
theorem C7_witness :
    scrape (["core.uptime"] ++ "sl.stats" :: []) respC7 =
      ((scrape ["core.uptime"] respC7).1, some (.malformed 1 0)) :=
  C7_partial_emission ["core.uptime"] "sl.stats" [] respC7 (.malformed 1 0)
    (by
      intro m' hm'
      rw [List.mem_singleton] at hm'
      subst hm'
      exact ⟨rfl, ⟨[("uptime", [⟨12345, []⟩])], rfl⟩⟩)
    rfl rfl

/-! ### Metric naming -/

/-- C8: for every supported method the exported names of its catalog
entry are pairwise distinct, and each equals the namespace `kamailio`,
an underscore, the method with dots replaced by underscores, an
underscore, and the local name, followed by `_total` exactly when the
metric is a counter. -/
theorem C8_exported_names :
    ∀ method ∈ availableMethods,
      (metricsList method).isSome = true ∧
      (((metricsList method).getD []).map Metric.ExportedName).Nodup ∧
      ∀ d ∈ (metricsList method).getD [],
        d.ExportedName =
          namespaceName ++ "_" ++ replaceDots d.Method ++ "_" ++ d.Name ++
            (if d.Kind = ValueKind.counter then "_total" else "") := by
  decide

/-- Witness for C8 at `tm.stats`. -/
theorem C8_witness :
    (metricsList "tm.stats").isSome = true ∧
    (((metricsList "tm.stats").getD []).map Metric.ExportedName).Nodup ∧
    ∀ d ∈ (metricsList "tm.stats").getD [],
      d.ExportedName =
        namespaceName ++ "_" ++ replaceDots d.Method ++ "_" ++ d.Name ++
          (if d.Kind = ValueKind.counter then "_total" else "") :=
  C8_exported_names "tm.stats" (by decide)

/-! ### Emission is filtered by the catalog -/

theorem mem_emitFold :
    ∀ (defs : List Metric) (scraped : Metrics) (acc : List Emitted) (e : Emitted),
      e ∈ defs.foldl (fun a d => a ++ emitDef scraped d) acc →
      e ∈ acc ∨ ∃ d ∈ defs, e ∈ emitDef scraped d := by
  intro defs
  induction defs with
  | nil => intro scraped acc e he; exact Or.inl he
  | cons d rest ih =>
    intro scraped acc e he
    rw [List.foldl_cons] at he
    rcases ih scraped (acc ++ emitDef scraped d) e he with hacc | ⟨d', hd', hed'⟩
    · rcases List.mem_append.mp hacc with h | h
      · exact Or.inl h
      · exact Or.inr ⟨d, List.mem_cons_self d rest, h⟩
    · exact Or.inr ⟨d', List.mem_cons_of_mem d hd', hed'⟩

/-- C10: every sample emitted for a method bears the exported name of a
definition in that method's catalog entry — the emission loop looks up
only declared local names, so samples stored by the projector under an
undeclared local name are dropped; in particular `peer` samples of
`dmq.list_nodes` (whose catalog declares only `status` and `local`) are
dropped silently, and such a cycle reports no error. -/
theorem C10_catalog_filter :
    (∀ (method : String) (scraped : Metrics) (e : Emitted),
      e ∈ emitMethod method scraped →
      ∃ d ∈ (metricsList method).getD [], e.name = d.ExportedName) ∧
    (∀ mvs : List MetricValue, emitMethod "dmq.list_nodes" [("peer", mvs)] = []) ∧
    scrapeMethod "dmq.list_nodes" [.vstruct dmqExampleItems] =
      .ok [("peer", [⟨1, [("host", "sip:n1"), ("status", "AP"), ("local", "1")]⟩])] ∧
    scrape ["dmq.list_nodes"] (fun _ => .ok [.vstruct dmqExampleItems]) = ([], none) := by
  refine ⟨?_, fun mvs => rfl, rfl, rfl⟩
  intro method scraped e he
  unfold emitMethod at he
  cases hml : metricsList method with
  | none =>
    rw [hml] at he
    cases he
  | some defs =>
    rw [hml] at he
    rcases mem_emitFold defs scraped [] e he with h | ⟨d, hd, hed⟩
    · cases h
    · refine ⟨d, ?_, ?_⟩
      · simpa [hml] using hd
      · unfold emitDef at hed
        obtain ⟨mv, _, hmv⟩ := List.mem_map.mp hed
        rw [← hmv]

/-- Witness for C10: the `core.uptime` sample emitted under the
exported counter name comes from the catalog entry. -/
theorem C10_witness :
    ∃ d ∈ (metricsList "core.uptime").getD [],
      (⟨"kamailio_core_uptime_uptime_total", "Uptime in seconds.", ValueKind.counter,
         12345, [], []⟩ : Emitted).name = d.ExportedName :=
  C10_catalog_filter.1 "core.uptime" [("uptime", [⟨12345, []⟩])]
    ⟨"kamailio_core_uptime_uptime_total", "Uptime in seconds.", ValueKind.counter,
      12345, [], []⟩
    (by decide)

end Kamailio
